import Mathlib

/-!
Shallow embedding of `src/meilisearch-http/src/index_controller/index_actor.rs`
(the Index Actor and its `HeedIndexStore`).

Modelling conventions:
- `Uuid` (an opaque 128-bit identifier) is modelled as `Nat`.
- `DateTime<Utc>` instants are modelled as `Nat`; each place where the code
  samples `Utc::now()` takes the sampled instant as an explicit parameter.
- The mutable world of a `HeedIndexStore` is a `StoreState`: the meta
  database (`db`), the live-index cache (`index_store`) and the set of ids
  whose on-disk directory `index-<id>` exists (`dirs`).
- Fallible engine and filesystem calls are driven by an explicit `Faults`
  record: each field injects the failure of one kind of external call.
- Rust panics are first-class outcomes: `Outcome.panic msg`. The pattern
  `spawn_blocking(c).await.expect("thread died")` is modelled by mapping
  both a dead worker thread and a panic inside the closure to
  `Outcome.panic "thread died"`.
-/

namespace Meili

/-- Index identifier (Rust `Uuid`), modelled as a natural number. -/
abbrev Uuid := Nat

/-- `Index(Arc<milli::Index>)`: an opened engine index. The engine internals
are out of scope; a handle is identified by the id it was opened for. -/
structure Index where
  openedFor : Uuid
deriving DecidableEq

/-- `IndexMeta`: the per-index metadata record persisted in the meta db. -/
structure IndexMeta where
  uuid : Uuid
  created_at : Nat
  updated_at : Nat
  primary_key : Option String
deriving DecidableEq

/-- `IndexError`: the error enum of the actor module. -/
inductive IndexError where
  | Error (msg : String)
  | IndexAlreadyExists
  | UnexistingIndex
  | HeedError (msg : String)
deriving DecidableEq

/-- Result of running a piece of Rust code: normal return, `Err`, or panic. -/
inductive Outcome (α : Type) where
  | ok (a : α)
  | err (e : IndexError)
  | panic (msg : String)
deriving DecidableEq

/-- Is the outcome a normal return? -/
def Outcome.isOk {α : Type} : Outcome α → Bool
  | .ok _ => true
  | _ => false

/-- Is the outcome an `Err` value? -/
def Outcome.isErr {α : Type} : Outcome α → Bool
  | .err _ => true
  | _ => false

/-- Is the outcome a panic? -/
def Outcome.isPanic {α : Type} : Outcome α → Bool
  | .panic _ => true
  | _ => false

/-- Lookup in an association list (models `heed` db `get` / `HashMap::get`). -/
def lookupA {α : Type} : List (Uuid × α) → Uuid → Option α
  | [], _ => none
  | (k, v) :: t, k' => if k = k' then some v else lookupA t k'

/-- Remove every binding of a key (models db `delete` / `HashMap::remove`). -/
def eraseA {α : Type} : List (Uuid × α) → Uuid → List (Uuid × α)
  | [], _ => []
  | (k, v) :: t, k' => if k = k' then eraseA t k' else (k, v) :: eraseA t k'

/-- Insert-or-replace a binding (models db `put` / `HashMap::insert`). -/
def insertA {α : Type} (l : List (Uuid × α)) (k : Uuid) (v : α) : List (Uuid × α) :=
  (k, v) :: eraseA l k

/-- The mutable state behind a `HeedIndexStore`: the meta database, the
live-index cache (`index_store`) and the existing `index-<id>` directories. -/
structure StoreState where
  db : List (Uuid × IndexMeta)
  cache : List (Uuid × Index)
  dirs : List Uuid
deriving DecidableEq

/-- Injected failures of external calls. `workerPanic`: the blocking worker
thread dies. `txnFail`: opening the heed transaction fails. `opFail`: the
in-transaction db get/put/delete fails. `commitFail`: the final put/commit
fails. `fsFail`: a filesystem call fails for a reason other than a missing
path (permissions, mount, ...). -/
structure Faults where
  workerPanic : Bool
  txnFail : Bool
  opFail : Bool
  commitFail : Bool
  fsFail : Bool
deriving DecidableEq

/-- No injected failure: every external call behaves normally. -/
def noFaults : Faults := ⟨false, false, false, false, false⟩

/-- Events observable on the outside world during `delete`:
`metaCommit` is the successful commit of the meta write transaction,
`fsRemove` is the invocation of `remove_dir_all` on the index directory. -/
inductive Event where
  | metaCommit
  | fsRemove
deriving DecidableEq

/-- `open_index` (source lines 608-614): `create_dir_all` is unwrapped with
an expect (its failure panics); the engine open is create-if-absent. -/
def open_index (fl : Faults) (uuid : Uuid) (dirs : List Uuid) :
    Outcome Index × List Uuid :=
  if fl.fsFail then (.panic "cant create db", dirs)
  else (.ok ⟨uuid⟩, if dirs.contains uuid then dirs else uuid :: dirs)

/-- The blocking closure of `HeedIndexStore::create_index` (lines 489-504):
sample `now`, build the record, write transaction, `put`, commit, then
`open_index` at the index path. -/
def create_index_blocking (fl : Faults) (now : Nat) (s : StoreState)
    (uuid : Uuid) (primary_key : Option String) :
    Outcome (Index × IndexMeta) × StoreState :=
  let meta : IndexMeta := ⟨uuid, now, now, primary_key⟩
  if fl.txnFail then (.err (.HeedError "write txn"), s)
  else if fl.opFail then (.err (.HeedError "put"), s)
  else if fl.commitFail then (.err (.HeedError "commit"), s)
  else
    let s1 : StoreState := { s with db := insertA s.db uuid meta }
    match open_index fl uuid s1.dirs with
    | (.ok index, dirs') => (.ok (index, meta), { s1 with dirs := dirs' })
    | (.err e, dirs') => (.err e, { s1 with dirs := dirs' })
    | (.panic m, dirs') => (.panic m, { s1 with dirs := dirs' })

/-- `HeedIndexStore::create_index` (lines 480-511). The directory-existence
check runs on the async side; the transactional work runs under
`spawn_blocking(..).await.expect("thread died")?`; on success the new handle
is inserted into the cache and the stored record is returned. -/
def create_index (fl : Faults) (now : Nat) (s : StoreState) (uuid : Uuid)
    (primary_key : Option String) : Outcome IndexMeta × StoreState :=
  if s.dirs.contains uuid then (.err .IndexAlreadyExists, s)
  else if fl.workerPanic then (.panic "thread died", s)
  else
    match create_index_blocking fl now s uuid primary_key with
    | (.ok (index, meta), s1) =>
        (.ok meta, { s1 with cache := insertA s1.cache uuid index })
    | (.err e, s1) => (.err e, s1)
    | (.panic _, s1) => (.panic "thread died", s1)

/-- `HeedIndexStore::get_meta` (lines 595-605): read transaction, lookup by
id, result unwrapped with `expect("thread died")`. -/
def get_meta (fl : Faults) (s : StoreState) (uuid : Uuid) :
    Outcome (Option IndexMeta) :=
  if fl.workerPanic then .panic "thread died"
  else if fl.txnFail then .err (.HeedError "read txn")
  else if fl.opFail then .err (.HeedError "get")
  else .ok (lookupA s.db uuid)

/-- `HeedIndexStore::delete` (lines 578-593). The blocking closure deletes
the meta row, commits, then calls `remove_dir_all(db_path).unwrap()` - the
unwrap panics whenever the removal fails, in particular when the directory
does not exist. Afterwards the cache entry is removed and returned. The
third component is the trace of observable events. -/
def delete (fl : Faults) (s : StoreState) (uuid : Uuid) :
    Outcome (Option Index) × StoreState × List Event :=
  if fl.workerPanic then (.panic "thread died", s, [])
  else
    let blocking : Outcome Unit × StoreState × List Event :=
      if fl.txnFail then (.err (.HeedError "write txn"), s, [])
      else if fl.opFail then (.err (.HeedError "delete"), s, [])
      else if fl.commitFail then (.err (.HeedError "commit"), s, [])
      else
        let s1 : StoreState := { s with db := eraseA s.db uuid }
        if s1.dirs.contains uuid && !fl.fsFail then
          (.ok (), { s1 with dirs := s1.dirs.filter (fun d => d ≠ uuid) },
            [.metaCommit, .fsRemove])
        else
          (.panic "remove dir all failed", s1, [.metaCommit, .fsRemove])
    match blocking with
    | (.ok _, s1, tr) =>
        (.ok (lookupA s1.cache uuid),
          { s1 with cache := eraseA s1.cache uuid }, tr)
    | (.err e, s1, tr) => (.err e, s1, tr)
    | (.panic _, s1, tr) => (.panic "thread died", s1, tr)

/-- The resolution phase of `HeedIndexStore::update_index` (lines 518-531):
cache hit clones the handle; cache miss calls `create_index(uuid, None)`
(its error propagates with `?`), then reads the cache back, unwrapping with
`expect("Index should exist")`. -/
def resolve_index (fl : Faults) (tc : Nat) (s : StoreState) (uuid : Uuid) :
    Outcome Index × StoreState :=
  match lookupA s.cache uuid with
  | some index => (.ok index, s)
  | none =>
      match create_index fl tc s uuid none with
      | (.ok _, s1) =>
          match lookupA s1.cache uuid with
          | some index => (.ok index, s1)
          | none => (.panic "Index should exist", s1)
      | (.err e, s1) => (.err e, s1)
      | (.panic m, s1) => (.panic m, s1)

/-- The blocking closure of `HeedIndexStore::update_index` (lines 535-547):
write transaction; `db.get` (`opFail`) then `expect("unexisting index")` on
the option; run `f` on the handle; on `Ok` bump `updated_at` to `now`, put
and commit (`commitFail` covers the failure of either, both abort the
transaction); on `Err` return the error, abandoning the transaction. -/
def update_index_blocking {R : Type} (fl : Faults) (now : Nat)
    (s : StoreState) (uuid : Uuid) (index : Index)
    (f : Index → Except IndexError R) : Outcome R × StoreState :=
  if fl.txnFail then (.err (.HeedError "write txn"), s)
  else if fl.opFail then (.err (.HeedError "get"), s)
  else
    match lookupA s.db uuid with
    | none => (.panic "unexisting index", s)
    | some meta =>
        match f index with
        | .ok r =>
            if fl.commitFail then (.err (.HeedError "commit"), s)
            else (.ok r,
              { s with db := insertA s.db uuid { meta with updated_at := now } })
        | .error e => (.err e, s)

/-- `HeedIndexStore::update_index` (lines 513-550): resolve the handle, then
run the meta transaction plus `f` on a blocking worker, the join unwrapped
with `expect("thread died")`. `tc` is the instant sampled if the cache miss
creates the index; `now` is the instant sampled inside the update
transaction. -/
def update_index {R : Type} (fl : Faults) (tc now : Nat) (s : StoreState)
    (uuid : Uuid) (f : Index → Except IndexError R) : Outcome R × StoreState :=
  match resolve_index fl tc s uuid with
  | (.ok index, s1) =>
      if fl.workerPanic then (.panic "thread died", s1)
      else
        match update_index_blocking fl now s1 uuid index f with
        | (.ok r, s2) => (.ok r, s2)
        | (.err e, s2) => (.err e, s2)
        | (.panic _, s2) => (.panic "thread died", s2)
  | (.err e, s1) => (.err e, s1)
  | (.panic m, s1) => (.panic m, s1)

/-- `IndexActor::handle_delete` (lines 323-338): call the store's `delete`,
propagate its error with `?`, spawn the asynchronous close task when a
cached handle was evicted (third component records whether it was), and
reply `Ok(())`. The evicted handle itself is discarded. -/
def handle_delete (fl : Faults) (s : StoreState) (uuid : Uuid) :
    Outcome Unit × StoreState × Bool :=
  match delete fl s uuid with
  | (.ok index, s1, _) => (.ok (), s1, index.isSome)
  | (.err e, s1, _) => (.err e, s1, false)
  | (.panic m, s1, _) => (.panic m, s1, false)

/-- Read-lane concurrency limit of `IndexActor::run` (line 174):
`read_stream.for_each_concurrent(Some(10), ..)`. -/
def readConcurrency : Nat := 10

/-- Write-lane concurrency limit of `IndexActor::run` (line 175):
`write_stream.for_each_concurrent(Some(1), ..)`. -/
def writeConcurrency : Nat := 1

/-- Scheduler-visible state of the run loop of `IndexActor::run`
(lines 142-181): the identities of the read-lane and write-lane handlers
currently active (started and not yet finished). -/
structure ActorState where
  activeRead : List Nat
  activeWrite : List Nat
deriving DecidableEq

/-- The initial state of the run loop: no handler active. -/
def ActorState.start : ActorState := ⟨[], []⟩

/-- One scheduler step of `IndexActor::run`. `for_each_concurrent(Some(n))`
begins the handler of a further message only while fewer than `n` handlers
of that lane are active; a handler finishes at any time. Message identities
are distinct while active. -/
inductive ActorStep : ActorState → ActorState → Prop where
  | startRead (m : Nat) (s : ActorState) :
      s.activeRead.length < readConcurrency → m ∉ s.activeRead →
      ActorStep s { s with activeRead := m :: s.activeRead }
  | finishRead (m : Nat) (s : ActorState) :
      ActorStep s { s with activeRead := s.activeRead.erase m }
  | startWrite (m : Nat) (s : ActorState) :
      s.activeWrite.length < writeConcurrency → m ∉ s.activeWrite →
      ActorStep s { s with activeWrite := m :: s.activeWrite }
  | finishWrite (m : Nat) (s : ActorState) :
      ActorStep s { s with activeWrite := s.activeWrite.erase m }

/-- States the run loop can reach from its start state. -/
def Reachable (s : ActorState) : Prop :=
  Relation.ReflTransGen ActorStep ActorState.start s

/-- The concurrency invariant of the two consumers of `IndexActor::run`. -/
def LaneInv (s : ActorState) : Prop :=
  s.activeRead.length ≤ readConcurrency ∧
  s.activeWrite.length ≤ writeConcurrency

theorem laneInv_step {s t : ActorState} (h : ActorStep s t) (hs : LaneInv s) :
    LaneInv t := by
  cases h with
  | startRead m s hlt _ =>
      exact ⟨by simpa using hlt, hs.2⟩
  | finishRead m s =>
      exact ⟨le_trans (List.Sublist.length_le (List.erase_sublist m s.activeRead)) hs.1, hs.2⟩
  | startWrite m s hlt _ =>
      exact ⟨hs.1, by simpa using hlt⟩
  | finishWrite m s =>
      exact ⟨hs.1, le_trans (List.Sublist.length_le (List.erase_sublist m s.activeWrite)) hs.2⟩

theorem laneInv_reachable {s : ActorState} (h : Reachable s) : LaneInv s := by
  induction h with
  | refl => exact ⟨by simp [ActorState.start], by simp [ActorState.start]⟩
  | tail _ hstep ih => exact laneInv_step hstep ih

theorem mem_of_length_le_one {l : List Nat} (h : l.length ≤ 1) {a b : Nat}
    (ha : a ∈ l) (hb : b ∈ l) : a = b := by
  match l with
  | [] => cases ha
  | [x] =>
      rw [List.mem_singleton] at ha hb
      rw [ha, hb]
  | x :: y :: t => simp at h

theorem lookupA_insertA_self {α : Type} (l : List (Uuid × α)) (k : Uuid) (v : α) :
    lookupA (insertA l k v) k = some v := by
  simp [insertA, lookupA]

theorem eraseA_of_lookupA_none {α : Type} (l : List (Uuid × α)) (k : Uuid)
    (h : lookupA l k = none) : eraseA l k = l := by
  induction l with
  | nil => rfl
  | cons p t ih =>
      rcases p with ⟨k', v⟩
      by_cases hk : k' = k
      · simp [lookupA, hk] at h
      · simp only [lookupA, if_neg hk] at h
        simp [eraseA, hk, ih h]

/-- Evaluation of `create_index` when no fault is injected and the index
directory does not exist yet: the record is inserted and committed, the
directory is created, and the fresh handle is cached. -/
theorem create_index_noFaults_eq (t : Nat) (s : StoreState) (uuid : Uuid)
    (pk : Option String) (hdir : s.dirs.contains uuid = false) :
    create_index noFaults t s uuid pk =
      (.ok ⟨uuid, t, t, pk⟩,
        ⟨insertA s.db uuid ⟨uuid, t, t, pk⟩,
          insertA s.cache uuid ⟨uuid⟩, uuid :: s.dirs⟩) := by
  have hmem : uuid ∉ s.dirs := by simpa using hdir
  simp [create_index, create_index_blocking, open_index, noFaults, hmem]

/-- Worker-thread death injected on every blocking call. -/
def panicFault : Faults := { noFaults with workerPanic := true }

/-- Commit failure injected on the meta write transaction. -/
def commitFault : Faults := { noFaults with commitFail := true }

/-- Empty store: no meta record, no cached handle, no index directory. -/
def st0 : StoreState := ⟨[], [], []⟩

/-- A store whose cache holds a handle for id 1 while the meta db is empty
and no directory exists. -/
def stHit : StoreState := ⟨[], [(1, ⟨1⟩)], []⟩

/-- A fully materialised index 1: meta record, cached handle, directory. -/
def stFull : StoreState := ⟨[(1, ⟨1, 0, 0, none⟩)], [(1, ⟨1⟩)], [1]⟩

/-- An index 1 whose directory and meta record exist, with primary key "a". -/
def stC6 : StoreState := ⟨[(1, ⟨1, 0, 0, some "a"⟩)], [], [1]⟩

/-- Claim C1, counterexample: with a worker-thread panic injected,
`create_index` on a fresh id does not reply with an error value at all -
the handler panics (via the expect on the join handle), refuting that every
variant returns its success payload or an error value. -/
theorem c1_counterexample :
    (create_index panicFault 0 st0 1 none).1.isPanic = true ∧
    (create_index panicFault 0 st0 1 none).1.isErr = false := by decide

/-- Claim C1 (amended): a worker-thread panic during the blocking section of
the store operations `create_index`, `get_meta`, `delete` or `update_index`
is not surfaced as an internal error; the store unwraps the join result
with an expect, so the actor-side handler panics with "thread died" and no
error value is produced for the caller. -/
theorem c1_store_ops_panic {R : Type} (fl : Faults) (s : StoreState)
    (uuid : Uuid) (pk : Option String) (t tc now : Nat) (index : Index)
    (f : Index → Except IndexError R)
    (hwp : fl.workerPanic = true) (hdir : s.dirs.contains uuid = false)
    (hc : lookupA s.cache uuid = some index) :
    (create_index fl t s uuid pk).1 = .panic "thread died" ∧
    get_meta fl s uuid = .panic "thread died" ∧
    (delete fl s uuid).1 = .panic "thread died" ∧
    (update_index fl tc now s uuid f).1 = .panic "thread died" := by
  have hmem : uuid ∉ s.dirs := by simpa using hdir
  refine ⟨?_, ?_, ?_, ?_⟩ <;>
    simp [create_index, get_meta, delete, update_index, resolve_index,
      hwp, hmem, hc]

/-- Claim C1, witness for the amended theorem at a concrete store. -/
theorem c1_witness :
    (create_index panicFault 3 stHit 1 none).1 = .panic "thread died" ∧
    get_meta panicFault stHit 1 = .panic "thread died" ∧
    (delete panicFault stHit 1).1 = .panic "thread died" ∧
    (update_index panicFault 0 5 stHit 1
        (fun i => (Except.ok i : Except IndexError Index))).1 =
      .panic "thread died" :=
  c1_store_ops_panic panicFault stHit 1 none 3 0 5 ⟨1⟩
    (fun i => Except.ok i) rfl rfl rfl

/-- Claim C2, counterexample: `delete` on id 1 in the empty store (no meta
record, no directory) is not a no-op returning absent - the unwrap on
`remove_dir_all` panics the worker and the handler panics via the expect on
the join handle. -/
theorem c2_counterexample :
    (delete noFaults st0 1).1.isPanic = true ∧
    (delete noFaults st0 1).1 ≠ Outcome.ok none := by decide

/-- Claim C2 (amended): for an id with no meta record and no on-disk
directory, `delete` commits the (no-op) meta removal - the meta db is
unchanged and the commit event is in the trace - but then panics while
removing the missing directory, because `remove_dir_all` is unwrapped
rather than treated as best-effort; it does not return absent. -/
theorem c2_delete_unknown_panics (s : StoreState) (uuid : Uuid)
    (hdb : lookupA s.db uuid = none) (hdir : s.dirs.contains uuid = false) :
    (delete noFaults s uuid).1 = .panic "thread died" ∧
    (delete noFaults s uuid).2.1.db = s.db ∧
    Event.metaCommit ∈ (delete noFaults s uuid).2.2 := by
  have hmem : uuid ∉ s.dirs := by simpa using hdir
  simp [delete, noFaults, hmem, eraseA_of_lookupA_none s.db uuid hdb]

/-- Claim C2, witness for the amended theorem at the empty store. -/
theorem c2_witness :
    (delete noFaults st0 1).1 = .panic "thread died" ∧
    (delete noFaults st0 1).2.1.db = st0.db ∧
    Event.metaCommit ∈ (delete noFaults st0 1).2.2 :=
  c2_delete_unknown_panics st0 1 rfl rfl

/-- Claim C3: once `update_index` has resolved the handle (state `s1`) and
the meta record `m` for the id is present, a failing transform `F` makes
the whole call return F's error with the state - in particular the stored
record - unchanged (the write transaction is abandoned without bumping
`updated_at`), while a succeeding `F` makes the call return F's result with
the record re-stored with `updated_at = now` and committed. -/
theorem c3_update_index_txn {R : Type} (tc now : Nat) (s s1 : StoreState)
    (uuid : Uuid) (index : Index) (m : IndexMeta)
    (f : Index → Except IndexError R)
    (hres : resolve_index noFaults tc s uuid = (.ok index, s1))
    (hm : lookupA s1.db uuid = some m) :
    (∀ e, f index = .error e →
      update_index noFaults tc now s uuid f = (.err e, s1)) ∧
    (∀ r, f index = .ok r →
      update_index noFaults tc now s uuid f =
        (.ok r, { s1 with db := insertA s1.db uuid { m with updated_at := now } })) := by
  constructor
  · intro e hfe
    unfold update_index
    rw [hres]
    simp [noFaults, update_index_blocking, hm, hfe]
  · intro r hfr
    unfold update_index
    rw [hres]
    simp [noFaults, update_index_blocking, hm, hfr]

/-- Claim C3, witness: on a fully materialised index, a failing transform
returns its error and leaves the store unchanged. -/
theorem c3_witness :
    update_index noFaults 0 5 stFull 1
        (fun _ => (Except.error IndexError.UnexistingIndex : Except IndexError Nat)) =
      (.err .UnexistingIndex, stFull) :=
  (c3_update_index_txn 0 5 stFull stFull 1 ⟨1⟩ ⟨1, 0, 0, none⟩
      (fun _ => Except.error IndexError.UnexistingIndex) rfl rfl).1
    .UnexistingIndex rfl

/-- Claim C4: a successful `create_index(id, pk)` at sampled instant `t`
returns the record with `created_at = updated_at = t` and primary key `pk`,
commits exactly that record to the meta db, caches the new handle, and a
subsequent `get_meta(id)` returns the same record. (`t` is the single
`Utc::now()` instant sampled on the worker inside the create, hence lies in
the create's wall-clock window.) -/
theorem c4_create_index_success (t : Nat) (s : StoreState) (uuid : Uuid)
    (pk : Option String) (hdir : s.dirs.contains uuid = false) :
    (create_index noFaults t s uuid pk).1 = .ok ⟨uuid, t, t, pk⟩ ∧
    (⟨uuid, t, t, pk⟩ : IndexMeta).created_at =
      (⟨uuid, t, t, pk⟩ : IndexMeta).updated_at ∧
    lookupA (create_index noFaults t s uuid pk).2.db uuid =
      some ⟨uuid, t, t, pk⟩ ∧
    lookupA (create_index noFaults t s uuid pk).2.cache uuid = some ⟨uuid⟩ ∧
    get_meta noFaults (create_index noFaults t s uuid pk).2 uuid =
      .ok (some ⟨uuid, t, t, pk⟩) := by
  rw [create_index_noFaults_eq t s uuid pk hdir]
  refine ⟨rfl, rfl, ?_, ?_, ?_⟩
  · exact lookupA_insertA_self s.db uuid _
  · exact lookupA_insertA_self s.cache uuid _
  · simp [get_meta, noFaults, lookupA_insertA_self]

/-- Claim C4, witness at the empty store with a concrete instant and key. -/
theorem c4_witness :
    (create_index noFaults 7 st0 1 (some "id")).1 = .ok ⟨1, 7, 7, some "id"⟩ ∧
    (⟨1, 7, 7, some "id"⟩ : IndexMeta).created_at =
      (⟨1, 7, 7, some "id"⟩ : IndexMeta).updated_at ∧
    lookupA (create_index noFaults 7 st0 1 (some "id")).2.db 1 =
      some ⟨1, 7, 7, some "id"⟩ ∧
    lookupA (create_index noFaults 7 st0 1 (some "id")).2.cache 1 = some ⟨1⟩ ∧
    get_meta noFaults (create_index noFaults 7 st0 1 (some "id")).2 1 =
      .ok (some ⟨1, 7, 7, some "id"⟩) :=
  c4_create_index_success 7 st0 1 (some "id") rfl

/-- Claim C5: in `delete`, the trace of observable events is either empty or
exactly the meta commit strictly followed by the directory removal; and
whenever opening the transaction, the meta delete or its commit fails, the
filesystem is never touched (no removal event, directories unchanged). -/
theorem c5_delete_order (fl : Faults) (s : StoreState) (uuid : Uuid) :
    ((delete fl s uuid).2.2 = [] ∨
      (delete fl s uuid).2.2 = [Event.metaCommit, Event.fsRemove]) ∧
    ((fl.txnFail = true ∨ fl.opFail = true ∨ fl.commitFail = true) →
      Event.fsRemove ∉ (delete fl s uuid).2.2 ∧
      (delete fl s uuid).2.1.dirs = s.dirs) := by
  rcases fl with ⟨wp, tf, opf, cf, ff⟩
  cases wp <;> cases tf <;> cases opf <;> cases cf <;> cases ff <;>
    by_cases hmem : uuid ∈ s.dirs <;>
    simp [delete, hmem]

/-- Claim C5, witness: with a commit failure injected, the directory of a
fully materialised index is not removed. -/
theorem c5_witness :
    Event.fsRemove ∉ (delete commitFault stFull 1).2.2 ∧
    (delete commitFault stFull 1).2.1.dirs = stFull.dirs :=
  (c5_delete_order commitFault stFull 1).2 (Or.inr (Or.inr rfl))

/-- Claim C6: `create_index` on an id whose directory already exists fails
with `IndexAlreadyExists` and leaves the whole store state - in particular
the meta db and its stored primary key - unchanged, whatever faults are
pending, since the check precedes any transactional work. -/
theorem c6_create_index_existing (fl : Faults) (t : Nat) (s : StoreState)
    (uuid : Uuid) (pk : Option String) (hdir : s.dirs.contains uuid = true) :
    create_index fl t s uuid pk = (.err .IndexAlreadyExists, s) := by
  have hmem : uuid ∈ s.dirs := by simpa using hdir
  simp [create_index, hmem]

/-- Claim C6, witness: re-creating id 1 (stored primary key "a") with
primary key "b" fails and the record keeps primary key "a". -/
theorem c6_witness :
    create_index noFaults 9 stC6 1 (some "b") = (.err .IndexAlreadyExists, stC6) ∧
    lookupA stC6.db 1 = some ⟨1, 0, 0, some "a"⟩ :=
  ⟨c6_create_index_existing noFaults 9 stC6 1 (some "b") rfl, rfl⟩

/-- Claim C7: the resolution phase of `update_index` returns the cloned
cached handle on a cache hit (store untouched); on a cache miss it first
creates a fresh index for the id with no primary key - the committed record
is the fresh one with `primary_key = none` - and returns the handle read
back from the cache of the post-create state. -/
theorem c7_resolution (tc : Nat) (s : StoreState) (uuid : Uuid) :
    (∀ index, lookupA s.cache uuid = some index →
      resolve_index noFaults tc s uuid = (.ok index, s)) ∧
    (lookupA s.cache uuid = none → s.dirs.contains uuid = false →
      resolve_index noFaults tc s uuid =
        (.ok ⟨uuid⟩, (create_index noFaults tc s uuid none).2) ∧
      lookupA (create_index noFaults tc s uuid none).2.db uuid =
        some ⟨uuid, tc, tc, none⟩ ∧
      lookupA (create_index noFaults tc s uuid none).2.cache uuid =
        some ⟨uuid⟩) := by
  constructor
  · intro index h
    simp [resolve_index, h]
  · intro h1 h2
    rw [create_index_noFaults_eq tc s uuid none h2]
    refine ⟨?_, ?_, ?_⟩
    · simp [resolve_index, h1, create_index_noFaults_eq tc s uuid none h2,
        lookupA_insertA_self]
    · exact lookupA_insertA_self s.db uuid _
    · exact lookupA_insertA_self s.cache uuid _

/-- Claim C7, witness: cache miss on the empty store creates the index with
no primary key and returns the freshly cached handle. -/
theorem c7_witness :
    resolve_index noFaults 4 st0 1 =
      (.ok ⟨1⟩, (create_index noFaults 4 st0 1 none).2) ∧
    lookupA (create_index noFaults 4 st0 1 none).2.db 1 = some ⟨1, 4, 4, none⟩ ∧
    lookupA (create_index noFaults 4 st0 1 none).2.cache 1 = some ⟨1⟩ :=
  (c7_resolution 4 st0 1).2 rfl rfl

/-- Claim C8, counterexample: with a cached handle for id 1 but no meta
record, `update_index` does not return an internal error value - the
expect on the missing row panics the worker and the expect on the join
handle panics the handler. -/
theorem c8_counterexample :
    (update_index noFaults 0 5 stHit 1
        (fun i => (Except.ok i : Except IndexError Index))).1.isPanic = true ∧
    (update_index noFaults 0 5 stHit 1
        (fun i => (Except.ok i : Except IndexError Index))).1.isErr = false := by
  decide

/-- Claim C8 (amended): when the meta row for the id is absent at the point
the write transaction reads it (after a cache hit established the index),
`update_index` panics the blocking worker on the expect over the missing
row, and the actor-side expect on the join handle turns this into a panic
of the handler; no error value is returned to the caller. -/
theorem c8_missing_meta_panics {R : Type} (tc now : Nat) (s : StoreState)
    (uuid : Uuid) (index : Index) (f : Index → Except IndexError R)
    (hc : lookupA s.cache uuid = some index)
    (hdb : lookupA s.db uuid = none) :
    (update_index noFaults tc now s uuid f).1 = .panic "thread died" := by
  simp [update_index, resolve_index, hc, noFaults, update_index_blocking, hdb]

/-- Claim C8, witness for the amended theorem at a concrete store. -/
theorem c8_witness :
    (update_index noFaults 0 5 stHit 1
        (fun i => (Except.ok i : Except IndexError Index))).1 =
      .panic "thread died" :=
  c8_missing_meta_panics 0 5 stHit 1 ⟨1⟩ (fun i => Except.ok i) rfl rfl

/-- Claim C9: in every reachable state of the run loop, at most one
write-lane handler is active - so the active intervals of two write-lane
operations never overlap: any two active write-lane handlers are the same
one - while at most 10 read-lane handlers are active. -/
theorem c9_lane_concurrency (s : ActorState) (h : Reachable s) :
    s.activeWrite.length ≤ writeConcurrency ∧
    s.activeRead.length ≤ readConcurrency ∧
    ∀ a b, a ∈ s.activeWrite → b ∈ s.activeWrite → a = b := by
  have hi := laneInv_reachable h
  exact ⟨hi.2, hi.1, fun a b ha hb => mem_of_length_le_one hi.2 ha hb⟩

/-- Claim C9, witness: a reachable state with one active write handler
satisfies the bounds. -/
theorem c9_witness :
    (⟨[], [5]⟩ : ActorState).activeWrite.length ≤ writeConcurrency ∧
    (⟨[], [5]⟩ : ActorState).activeRead.length ≤ readConcurrency :=
  ⟨(c9_lane_concurrency ⟨[], [5]⟩
      (Relation.ReflTransGen.tail Relation.ReflTransGen.refl
        (ActorStep.startWrite 5 ActorState.start (by simp [ActorState.start, writeConcurrency])
          (by simp [ActorState.start])))).1,
    (c9_lane_concurrency ⟨[], [5]⟩
      (Relation.ReflTransGen.tail Relation.ReflTransGen.refl
        (ActorStep.startWrite 5 ActorState.start (by simp [ActorState.start, writeConcurrency])
          (by simp [ActorState.start])))).2.1⟩

/-- Claim C10: whenever the store's `delete` returns without error, the
actor's `handle_delete` replies with the same unit success value whether
the returned option held an evicted handle or not - the handle is
discarded, so the caller cannot distinguish the two cases. -/
theorem c10_delete_reply (fl : Faults) (s : StoreState) (uuid : Uuid)
    (o : Option Index) (h : (delete fl s uuid).1 = .ok o) :
    (handle_delete fl s uuid).1 = .ok () := by
  unfold handle_delete
  rcases hd : delete fl s uuid with ⟨r, s1, tr⟩
  rw [hd] at h
  simp only at h
  subst h
  simp

/-- Claim C10, witness: deleting the fully materialised index 1 (a cached
handle is evicted) replies with unit success. -/
theorem c10_witness : (handle_delete noFaults stFull 1).1 = .ok () :=
  c10_delete_reply noFaults stFull 1 (some ⟨1⟩) (by decide)

end Meili
